import Mathlib

/-!
Shallow embedding of the token lifecycle manager of `src/token_manager.py`
(the authoritative implementation; `src/oauth.py` is its standalone ancestor
with the same callback logic).

Credential records are JSON objects, modelled as association lists with
unique-key semantics matching Python dicts.  `get_valid_token` and the OAuth
callback handler are modelled as pure functions from an explicit environment
(configuration, on-disk store contents, the current unix time, and the one
HTTP response the network would return to the one possible POST) to an
outcome recording the returned value or raised exception, the store contents
after the call, the number of token-endpoint POSTs issued, and whether the
tokens file was read.
-/

namespace SchwabTokens

/-- A JSON value as far as the token manager manipulates one: the fields it
reads are strings (`access_token`, `refresh_token`) or integers
(`_saved_at`, `expires_in`); further server fields are carried opaquely. -/
inductive JVal where
  | s (v : String)
  | n (v : Int)
  deriving DecidableEq

/-- A credential record: a JSON object, keys unique as in a Python dict. -/
abbrev Record := List (String × JVal)

/-- Python `d[key]` / `d.get(key)` lookup (first matching key). -/
def lookupField : Record → String → Option JVal
  | [], _ => none
  | (k, v) :: rest, key => if k = key then some v else lookupField rest key

/-- Python `d[key] = v`: replace the value at an existing key, else append. -/
def setField : Record → String → JVal → Record
  | [], key, v => [(key, v)]
  | (k, w) :: rest, key, v =>
    if k = key then (key, v) :: rest else (k, w) :: setField rest key v

/-- Python `tokens.get(key, d)` where the code then does integer arithmetic
on the result: `some` the integer (or the default when the key is absent),
`none` when the key holds a non-integer (a `TypeError` downstream). -/
def getIntD (r : Record) (key : String) (d : Int) : Option Int :=
  match lookupField r key with
  | none => some d
  | some (.n v) => some v
  | some (.s _) => none

/-- `APP_KEY` / `APP_SECRET` read from the environment: absent (`None`) or a
string. -/
structure Config where
  app_key : Option String
  app_secret : Option String

/-- Python `not (not APP_KEY or not APP_SECRET)`: both set and non-empty
(`_validate_credentials`, token_manager.py lines 68-74). -/
def credsPresent (cfg : Config) : Bool :=
  match cfg.app_key, cfg.app_secret with
  | some k, some s => !(k = "") && !(s = "")
  | _, _ => false

/-- `requests.Response.ok`: true iff the status code is less than 400. -/
def respOk (status : Nat) : Bool := status < 400

/-- The one HTTP response the authorization server returns to the POST the
function under scrutiny may issue.  `jsonBody` is `some r` iff `resp.json()`
succeeds and yields the object `r`. -/
structure HttpResponse where
  status : Nat
  text : String
  jsonBody : Option Record
  deriving DecidableEq

/-- The Python exceptions the token manager can raise. -/
inductive PyErr where
  | valueError
  | fileNotFound
  | keyError (k : String)
  | typeError
  | jsonDecodeError
  | refreshFailed (status : Nat) (body : String)
  deriving DecidableEq

/-- Outcome of a `get_valid_token` call: result or exception, the store
contents afterwards, how many token-endpoint POSTs were issued, and whether
the tokens file was opened for reading. -/
structure TMOutcome where
  result : Except PyErr JVal
  store : Option Record
  posts : Nat
  fileRead : Bool

/-- The freshness check of token_manager.py lines 98-104:
`saved_at = tokens.get("_saved_at", 0)`, `expires_in =
tokens.get("expires_in", 1800)`, fresh iff `now - saved_at < expires_in -
60`; `none` when either field holds a non-integer (Python `TypeError`). -/
def tokenFresh (r : Record) (now : Int) : Option Bool :=
  match getIntD r "_saved_at" 0, getIntD r "expires_in" 1800 with
  | some sa, some e => some (decide (now - sa < e - 60))
  | _, _ => none

/-- `get_valid_token(profile)`, token_manager.py lines 78-137.  `store` is
the contents of the profile's tokens file (`none` when the file does not
exist), `now` is `int(time.time())`, `net` the refresh response. -/
def get_valid_token (cfg : Config) (store : Option Record) (now : Int)
    (net : HttpResponse) : TMOutcome :=
  if credsPresent cfg = false then
    ⟨.error .valueError, store, 0, false⟩
  else
    match store with
    | none => ⟨.error .fileNotFound, none, 0, true⟩
    | some tokens =>
      match tokenFresh tokens now with
      | none => ⟨.error .typeError, store, 0, true⟩
      | some true =>
        match lookupField tokens "access_token" with
        | some v => ⟨.ok v, store, 0, true⟩
        | none => ⟨.error (.keyError "access_token"), store, 0, true⟩
      | some false =>
        match lookupField tokens "refresh_token" with
        | none => ⟨.error (.keyError "refresh_token"), store, 0, true⟩
        | some _ =>
          if respOk net.status = false then
            ⟨.error (.refreshFailed net.status net.text), store, 1, true⟩
          else
            match net.jsonBody with
            | none => ⟨.error .jsonDecodeError, store, 1, true⟩
            | some payload =>
              match lookupField (setField payload "_saved_at" (.n now))
                  "access_token" with
              | some v =>
                ⟨.ok v, some (setField payload "_saved_at" (.n now)), 1, true⟩
              | none =>
                ⟨.error (.keyError "access_token"),
                  some (setField payload "_saved_at" (.n now)), 1, true⟩

/-- A request hitting the `/callback` route: `request.args.get` yields
`none` when a query parameter is absent. -/
structure CallbackRequest where
  code : Option String
  state : Option String
  deriving DecidableEq

/-- Outcome of one callback-handler invocation: response body and status,
the store contents afterwards, and the number of token-endpoint POSTs. -/
structure CallbackOutcome where
  body : String
  status : Nat
  store : Option Record
  posts : Nat

/-- Python truthiness of `request.args.get(...)`: `None` and `""` are
falsy. -/
def truthyStr : Option String → Bool
  | none => false
  | some v => !(v = "")

/-- The body returned to the browser on the success branch
(token_manager.py line 220). -/
def successBody : String :=
  "Tokens received \x14 you can close this tab. Check your console."

/-- The `/callback` handler of `perform_oauth_flow`, token_manager.py lines
177-222.  `sessionState` is the closure-captured session `state`; `net` is
the response to the authorization-code exchange POST (issued only when the
request passes both guards). -/
def callback (sessionState : String) (store : Option Record) (now : Int)
    (net : HttpResponse) (req : CallbackRequest) : CallbackOutcome :=
  if truthyStr req.code = false then
    ⟨"Missing code", 400, store, 0⟩
  else if req.state ≠ some sessionState then
    ⟨"State mismatch", 400, store, 0⟩
  else
    if respOk net.status = true then
      match net.jsonBody with
      | some payload =>
        ⟨successBody, 200, some (setField payload "_saved_at" (.n now)), 1⟩
      | none => ⟨successBody, 200, store, 1⟩
    else
      ⟨"Token exchange failed (" ++ toString net.status ++ "). See console.",
        400, store, 1⟩

/-! ### PKCE session and authorize URL (token_manager.py lines 63-65, 156-172) -/

/-- The urlsafe base64 alphabet, indexed as in `base64.urlsafe_b64encode`. -/
def b64Char (i : Nat) : Char :=
  let j := i % 64
  if j < 26 then Char.ofNat (65 + j)
  else if j < 52 then Char.ofNat (97 + (j - 26))
  else if j < 62 then Char.ofNat (48 + (j - 52))
  else if j = 62 then '-' else '_'

/-- Base64 encoding of a byte list over the urlsafe alphabet, with the
trailing `=` padding already stripped (`.rstrip("=")`). -/
def b64urlCore : List Nat → List Char
  | [] => []
  | [a] =>
    let a := a % 256
    [b64Char (a / 4), b64Char ((a % 4) * 16)]
  | [a, b] =>
    let a := a % 256
    let b := b % 256
    [b64Char (a / 4), b64Char ((a % 4) * 16 + b / 16), b64Char ((b % 16) * 4)]
  | a :: b :: c :: rest =>
    let a := a % 256
    let b := b % 256
    let c := c % 256
    b64Char (a / 4) :: b64Char ((a % 4) * 16 + b / 16) ::
      b64Char ((b % 16) * 4 + c / 64) :: b64Char (c % 64) :: b64urlCore rest

/-- `_b64url` (token_manager.py lines 63-65): base64url without padding. -/
def b64url (bs : List Nat) : String := String.mk (b64urlCore bs)

/-- The characters `urllib.parse.quote` leaves unescaped when called with
the empty `safe` string `urlencode` passes it: letters, digits, `_.-~`. -/
def quoteSafe (c : Char) : Bool :=
  decide ('A' ≤ c ∧ c ≤ 'Z') || decide ('a' ≤ c ∧ c ≤ 'z')
    || decide ('0' ≤ c ∧ c ≤ '9') || c == '_' || c == '.' || c == '-' || c == '~'

/-- Upper-case hexadecimal digit. -/
def hexDigit (n : Nat) : Char :=
  if n < 10 then Char.ofNat (48 + n % 16) else Char.ofNat (55 + n % 16)

/-- Percent-encoding of one character (UTF-8 bytes) unless it is safe. -/
def quoteChar (c : Char) : List Char :=
  if quoteSafe c then [c]
  else
    ((String.mk [c]).toUTF8.toList.map
      (fun b => ['%', hexDigit (b.toNat / 16), hexDigit (b.toNat % 16)])).flatten

/-- `urllib.parse.quote(s, safe="")` as invoked by `urlencode`. -/
def quote (s : String) : String := String.mk ((s.toList.map quoteChar).flatten)

/-- `urllib.parse.urlencode(params, quote_via=quote)`: `&`-joined
`key=value` pairs, each side percent-encoded. -/
def urlencodePairs (ps : List (String × String)) : String :=
  String.intercalate "&" (ps.map (fun p => quote p.1 ++ "=" ++ quote p.2))

/-- The ephemeral Authorization Session of one `perform_oauth_flow` run. -/
structure AuthSession where
  code_verifier : String
  code_challenge : String
  state : String

/-- Session construction (token_manager.py lines 156-159): the SHA-256
digest is the library primitive `hashlib.sha256(...).digest()`, passed here
as an abstract byte-level function; the challenge is its `_b64url`. -/
def mkSession (sha256 : String → List Nat) (verifier st : String) :
    AuthSession :=
  { code_verifier := verifier
    code_challenge := b64url (sha256 verifier)
    state := st }

def REDIRECT_URI : String := "https://127.0.0.1:8443/callback"

def SCOPE : String := "readonly"

def AUTH_URL : String := "https://api.schwabapi.com/v1/oauth/authorize"

/-- The query parameters of the authorize URL (token_manager.py lines
162-170), in source order. -/
def authorizeParams (appKey : String) (sess : AuthSession) :
    List (String × String) :=
  [("response_type", "code"),
   ("client_id", appKey),
   ("redirect_uri", REDIRECT_URI),
   ("scope", SCOPE),
   ("state", sess.state),
   ("code_challenge", sess.code_challenge),
   ("code_challenge_method", "S256")]

/-- The authorize URL (token_manager.py lines 171-172). -/
def authorizeUrl (appKey : String) (sess : AuthSession) : String :=
  AUTH_URL ++ "?" ++ urlencodePairs (authorizeParams appKey sess)

/-! ### Token Store write path (token_manager.py lines 129-134 / 210-216) -/

/-- Filesystem operations the save path can perform. `rename` is in the
vocabulary so that atomic-rename saving is expressible, even though the
source never performs one. -/
inductive FsOp where
  | truncateOpen (path : String)
  | write (path : String) (data : String)
  | chmod (path : String) (mode : Nat)
  | rename (src dst : String)
  deriving DecidableEq

/-- JSON string escaping (the cases relevant to token material). -/
def escapeChar (c : Char) : List Char :=
  if c = '"' then ['\\', '"']
  else if c = '\\' then ['\\', '\\']
  else if c = '\n' then ['\\', 'n']
  else [c]

def escapeStr (s : String) : String :=
  String.mk ((s.toList.map escapeChar).flatten)

def serializeJVal : JVal → String
  | .s v => "\"" ++ escapeStr v ++ "\""
  | .n v => toString v

/-- `json.dump(record, f, indent=2)` output for a JSON object. -/
def serializeRecord (r : Record) : String :=
  match r with
  | [] => "\x7b\x7d"
  | _ =>
    "\x7b\n" ++
      String.intercalate ",\n"
        (r.map (fun p => "  \"" ++ escapeStr p.1 ++ "\": " ++ serializeJVal p.2)) ++
      "\n\x7d"

/-- The operation sequence of the source's save path:
`with open(tokens_file, "w") as f: json.dump(new_tokens, f, indent=2)`
followed by `os.chmod(tokens_file, 0o600)` (token_manager.py lines 132-134
and 214-216).  The `"w"` open truncates the target in place; no temporary
file and no rename are involved. -/
def saveOps (path : String) (r : Record) : List FsOp :=
  [.truncateOpen path, .write path (serializeRecord r), .chmod path 0o600]

/-- Filesystem contents: path to file contents, `none` when absent. -/
abbrev Fs := String → Option String

def applyOp (fs : Fs) : FsOp → Fs
  | .truncateOpen p => fun q => if q = p then some "" else fs q
  | .write p d => fun q => if q = p then some ((fs p).getD "" ++ d) else fs q
  | .chmod _ _ => fs
  | .rename src dst =>
    fun q => if q = dst then fs src else if q = src then none else fs q

def runOps (fs : Fs) : List FsOp → Fs
  | [] => fs
  | op :: rest => runOps (applyOp fs op) rest

/-- The filesystem visible after the first `k` operations — what an
observer (or a crash) at that point sees. -/
def statesAfter (fs : Fs) (ops : List FsOp) (k : Nat) : Fs :=
  runOps fs (ops.take k)

/-- Modelled from the spec: atomicity with respect to partial writes.  A
save of `newContent` into `path` is crash-safe when after every prefix of
its operation sequence the file at `path` reads back either the previously
committed contents or the complete new contents — never a truncated or
partial intermediate. -/
def crashSafe (ops : List FsOp) (path : String) (fs : Fs)
    (newContent : String) : Prop :=
  ∀ k, statesAfter fs ops k path = fs path ∨
    statesAfter fs ops k path = some newContent

/-! ### Helper lemmas -/

theorem lookupField_setField_self (r : Record) (key : String) (v : JVal) :
    lookupField (setField r key v) key = some v := by
  induction r with
  | nil => simp [setField, lookupField]
  | cons p rest ih =>
    obtain ⟨k, w⟩ := p
    by_cases h : k = key
    · simp [setField, lookupField, h]
    · simp [setField, lookupField, h, ih]

theorem lookupField_setField_ne (r : Record) (key other : String) (v : JVal)
    (h : other ≠ key) :
    lookupField (setField r key v) other = lookupField r other := by
  induction r with
  | nil =>
    have hko : ¬key = other := fun hh => h hh.symm
    simp [setField, lookupField, hko]
  | cons p rest ih =>
    obtain ⟨k, w⟩ := p
    by_cases hk : k = key
    · subst hk
      have hko : ¬k = other := fun hh => h hh.symm
      simp [setField, lookupField, hko]
    · have hsf : setField ((k, w) :: rest) key v = (k, w) :: setField rest key v := by
        simp [setField, hk]
      rw [hsf]
      by_cases ho : k = other
      · simp [lookupField, ho]
      · simp [lookupField, ho, ih]

theorem tokenFresh_of_fields (r : Record) (now sa e : Int)
    (hsa : getIntD r "_saved_at" 0 = some sa)
    (he : getIntD r "expires_in" 1800 = some e) :
    tokenFresh r now = some (decide (now - sa < e - 60)) := by
  unfold tokenFresh
  rw [hsa, he]

end SchwabTokens

namespace SchwabTokens

/-! ### Claim theorems -/

/-- C1: for every profile whose stored credential record satisfies
`now - saved_at < expires_in - 60` at call time, `get_valid_token` returns
the stored `access_token` unchanged, performs zero network calls, and
leaves the on-disk record unmodified. -/
theorem C1_fresh_fast_path (cfg : Config) (r : Record) (now : Int)
    (net : HttpResponse) (sa e : Int) (tok : JVal)
    (hc : credsPresent cfg = true)
    (hsa : getIntD r "_saved_at" 0 = some sa)
    (he : getIntD r "expires_in" 1800 = some e)
    (hfresh : now - sa < e - 60)
    (htok : lookupField r "access_token" = some tok) :
    get_valid_token cfg (some r) now net =
      ⟨.ok tok, some r, 0, true⟩ := by
  have hf : tokenFresh r now = some true := by
    rw [tokenFresh_of_fields r now sa e hsa he]
    simp [hfresh]
  simp [get_valid_token, hc, hf, htok]

/-- Witness for C1 at a concrete fresh record. -/
theorem C1_fresh_fast_path_witness :
    get_valid_token ⟨some "key", some "secret"⟩
        (some [("access_token", .s "tokA"), ("refresh_token", .s "R"),
               ("expires_in", .n 1800), ("_saved_at", .n 1000)])
        1100 ⟨500, "unused", none⟩ =
      ⟨.ok (.s "tokA"),
       some [("access_token", .s "tokA"), ("refresh_token", .s "R"),
             ("expires_in", .n 1800), ("_saved_at", .n 1000)],
       0, true⟩ :=
  C1_fresh_fast_path _ _ 1100 _ 1000 1800 (.s "tokA")
    (by decide) (by decide) (by decide) (by decide) (by decide)

/-- C2: for every profile whose stored record satisfies
`now - saved_at >= expires_in - 60`, `get_valid_token` issues exactly one
refresh POST; on a successful (2xx) response it overwrites the store record
in full with the response payload (so a `refresh_token` in the response
replaces the old one and any extra server fields are those of the
response), sets the new record's `_saved_at` to the call time, and returns
the new `access_token` from the response. -/
theorem C2_refresh_overwrites (cfg : Config) (r : Record) (now : Int)
    (net : HttpResponse) (sa e : Int) (rt : JVal) (payload : Record)
    (tok : JVal)
    (hc : credsPresent cfg = true)
    (hsa : getIntD r "_saved_at" 0 = some sa)
    (he : getIntD r "expires_in" 1800 = some e)
    (hstale : e - 60 ≤ now - sa)
    (hrt : lookupField r "refresh_token" = some rt)
    (h2xx : 200 ≤ net.status ∧ net.status < 300)
    (hbody : net.jsonBody = some payload)
    (htok : lookupField (setField payload "_saved_at" (.n now))
      "access_token" = some tok) :
    get_valid_token cfg (some r) now net =
      ⟨.ok tok, some (setField payload "_saved_at" (.n now)), 1, true⟩ ∧
    lookupField (setField payload "_saved_at" (.n now)) "_saved_at" =
      some (.n now) := by
  have hf : tokenFresh r now = some false := by
    rw [tokenFresh_of_fields r now sa e hsa he]
    simp only [Option.some.injEq, decide_eq_false_iff_not, not_lt]
    omega
  have hok : respOk net.status = true := by
    simp only [respOk, decide_eq_true_eq]
    omega
  refine ⟨?_, lookupField_setField_self _ _ _⟩
  simp [get_valid_token, hc, hf, hrt, hok, hbody, htok]

/-- Witness for C2 at a concrete stale record and mocked 200 response with
a rotated refresh token. -/
theorem C2_refresh_overwrites_witness :
    get_valid_token ⟨some "key", some "secret"⟩
        (some [("access_token", .s "old"), ("refresh_token", .s "R"),
               ("expires_in", .n 1800), ("_saved_at", .n 0)])
        5000 ⟨200, "body",
              some [("access_token", .s "newTok"),
                    ("refresh_token", .s "newR"), ("expires_in", .n 1800)]⟩ =
      ⟨.ok (.s "newTok"),
       some (setField [("access_token", .s "newTok"),
                       ("refresh_token", .s "newR"), ("expires_in", .n 1800)]
              "_saved_at" (.n 5000)), 1, true⟩ ∧
    lookupField (setField [("access_token", .s "newTok"),
                           ("refresh_token", .s "newR"),
                           ("expires_in", .n 1800)]
                  "_saved_at" (.n 5000)) "_saved_at" = some (.n 5000) :=
  C2_refresh_overwrites _ _ 5000 _ 0 1800 (.s "R") _ (.s "newTok")
    (by decide) (by decide) (by decide) (by decide) (by decide)
    ⟨by decide, by decide⟩ rfl (by decide)

/-- C3 counterexample: the code gates the refresh on `resp.ok`
(status < 400), not on "2xx".  A non-2xx 304 response with a parseable body
raises no `RefreshFailed` exception and overwrites the stored record, so
the claim as stated is false. -/
theorem C3_counterexample :
    get_valid_token ⟨some "k", some "s"⟩
        (some [("access_token", JVal.s "old"), ("refresh_token", JVal.s "R"),
               ("expires_in", JVal.n 1800), ("_saved_at", JVal.n 0)])
        5000 ⟨304, "not modified",
              some [("access_token", JVal.s "new304")]⟩ =
      ⟨.ok (.s "new304"),
       some [("access_token", JVal.s "new304"), ("_saved_at", JVal.n 5000)],
       1, true⟩ ∧
    some [("access_token", JVal.s "new304"), ("_saved_at", JVal.n 5000)] ≠
      some [("access_token", JVal.s "old"), ("refresh_token", JVal.s "R"),
            ("expires_in", JVal.n 1800), ("_saved_at", JVal.n 0)] :=
  ⟨rfl, by decide⟩

/-- C3 amended: if the refresh exchange response is not `resp.ok`
(status ≥ 400), `get_valid_token` raises the refresh-failure exception
carrying the server's status code and body, and the stored record is left
unchanged, so a retry can reattempt with the same refresh token. -/
theorem C3_refresh_failure_preserves_record (cfg : Config) (r : Record)
    (now : Int) (net : HttpResponse) (sa e : Int) (rt : JVal)
    (hc : credsPresent cfg = true)
    (hsa : getIntD r "_saved_at" 0 = some sa)
    (he : getIntD r "expires_in" 1800 = some e)
    (hstale : e - 60 ≤ now - sa)
    (hrt : lookupField r "refresh_token" = some rt)
    (hbad : 400 ≤ net.status) :
    get_valid_token cfg (some r) now net =
      ⟨.error (.refreshFailed net.status net.text), some r, 1, true⟩ := by
  have hf : tokenFresh r now = some false := by
    rw [tokenFresh_of_fields r now sa e hsa he]
    simp only [Option.some.injEq, decide_eq_false_iff_not, not_lt]
    omega
  have hok : respOk net.status = false := by
    simp only [respOk, decide_eq_false_iff_not, not_lt]
    omega
  simp [get_valid_token, hc, hf, hrt, hok]

/-- Witness for the amended C3 at a concrete stale record and mocked 401. -/
theorem C3_refresh_failure_witness :
    get_valid_token ⟨some "key", some "secret"⟩
        (some [("access_token", .s "old"), ("refresh_token", .s "R"),
               ("expires_in", .n 1800), ("_saved_at", .n 0)])
        5000 ⟨401, "unauthorized", none⟩ =
      ⟨.error (.refreshFailed 401 "unauthorized"),
       some [("access_token", .s "old"), ("refresh_token", .s "R"),
             ("expires_in", .n 1800), ("_saved_at", .n 0)], 1, true⟩ :=
  C3_refresh_failure_preserves_record _ _ 5000 _ 0 1800 (.s "R")
    (by decide) (by decide) (by decide) (by decide) (by decide) (by decide)

/-- C8: `get_valid_token` fails with the missing-credentials error when the
client id or secret is absent, before any file or network access, and fails
with the not-found error when no record file exists for the profile. -/
theorem C8_missing_creds_and_not_found (cfg : Config) (store : Option Record)
    (now : Int) (net : HttpResponse) :
    (credsPresent cfg = false →
      get_valid_token cfg store now net =
        ⟨.error .valueError, store, 0, false⟩) ∧
    (credsPresent cfg = true → store = none →
      get_valid_token cfg store now net =
        ⟨.error .fileNotFound, none, 0, true⟩) := by
  constructor
  · intro h
    simp [get_valid_token, h]
  · intro h hs
    subst hs
    simp [get_valid_token, h]

/-- Witness for C8: a configuration missing the app key, and a present
configuration with no stored record. -/
theorem C8_missing_creds_and_not_found_witness :
    get_valid_token ⟨none, some "secret"⟩ (some []) 0 ⟨200, "", none⟩ =
      ⟨.error .valueError, some [], 0, false⟩ ∧
    get_valid_token ⟨some "key", some "secret"⟩ none 0 ⟨200, "", none⟩ =
      ⟨.error .fileNotFound, none, 0, true⟩ :=
  ⟨(C8_missing_creds_and_not_found _ _ _ _).1 (by decide),
   (C8_missing_creds_and_not_found _ _ _ _).2 (by decide) rfl⟩

/-- C9: on every write of a credential record — the refresh path and the
authorization-code exchange path — the written record's `_saved_at` field
equals the local clock time at the call, whatever the server response
contained. -/
theorem C9_saved_at_stamped_at_write :
    (∀ cfg store now net,
      (get_valid_token cfg store now net).store = store ∨
      ∃ rec, (get_valid_token cfg store now net).store = some rec ∧
        lookupField rec "_saved_at" = some (.n now)) ∧
    (∀ st store now net req,
      (callback st store now net req).store = store ∨
      ∃ rec, (callback st store now net req).store = some rec ∧
        lookupField rec "_saved_at" = some (.n now)) := by
  constructor
  · intro cfg store now net
    unfold get_valid_token
    repeat' split
    all_goals try exact Or.inl rfl
    all_goals exact Or.inr ⟨_, rfl, lookupField_setField_self _ _ _⟩
  · intro st store now net req
    unfold callback
    repeat' split
    all_goals try exact Or.inl rfl
    all_goals exact Or.inr ⟨_, rfl, lookupField_setField_self _ _ _⟩

/-- C10: a stored record lacking `_saved_at` is read with `saved_at = 0`
(so its age is the current unix time, and it is stale whenever
`now ≥ expires_in - 60`); a record lacking `expires_in` is checked against
the default lifetime of 1800 seconds. -/
theorem C10_missing_field_defaults (r : Record) (now e : Int) :
    (lookupField r "_saved_at" = none →
      getIntD r "_saved_at" 0 = some 0 ∧
      (getIntD r "expires_in" 1800 = some e → e - 60 ≤ now →
        tokenFresh r now = some false)) ∧
    (lookupField r "expires_in" = none →
      getIntD r "expires_in" 1800 = some 1800) := by
  constructor
  · intro h
    have h0 : getIntD r "_saved_at" 0 = some 0 := by simp [getIntD, h]
    refine ⟨h0, ?_⟩
    intro he hle
    rw [tokenFresh_of_fields r now 0 e h0 he]
    simp only [Option.some.injEq, decide_eq_false_iff_not, not_lt]
    omega
  · intro h
    simp [getIntD, h]

/-- Witness for C10 at a record carrying only an access token. -/
theorem C10_missing_field_defaults_witness :
    getIntD [("access_token", JVal.s "t")] "_saved_at" 0 = some 0 ∧
    tokenFresh [("access_token", JVal.s "t")] 1800 = some false ∧
    getIntD [("access_token", JVal.s "t")] "expires_in" 1800 = some 1800 :=
  ⟨((C10_missing_field_defaults [("access_token", JVal.s "t")] 1800 1800).1
      (by decide)).1,
   ((C10_missing_field_defaults [("access_token", JVal.s "t")] 1800 1800).1
      (by decide)).2 (by decide) (by decide),
   (C10_missing_field_defaults [("access_token", JVal.s "t")] 1800 1800).2
      (by decide)⟩

/-- C5: a callback request with a falsy `code` parameter (absent, or the
empty string — in particular one that lacks the parameter) is answered
400 "Missing code"; a request carrying a code whose `state` does not
exactly match the session's `state` is answered 400 "State mismatch"; in
both cases no token-endpoint exchange is performed and no store write
occurs, so the listener keeps awaiting a valid callback. -/
theorem C5_callback_guards (st : String) (store : Option Record) (now : Int)
    (net : HttpResponse) (req : CallbackRequest) :
    (truthyStr req.code = false →
      callback st store now net req = ⟨"Missing code", 400, store, 0⟩) ∧
    (∀ c, req.code = some c → c ≠ "" → req.state ≠ some st →
      callback st store now net req = ⟨"State mismatch", 400, store, 0⟩) := by
  constructor
  · intro h
    simp [callback, h]
  · intro c hc hne hst
    have ht : truthyStr req.code = true := by simp [truthyStr, hc, hne]
    simp [callback, ht, hst]

/-- Witness for C5: a request with no code, and a request with a code but a
wrong state. -/
theorem C5_callback_guards_witness :
    callback "S" none 0 ⟨200, "", none⟩ ⟨none, some "S"⟩ =
      ⟨"Missing code", 400, none, 0⟩ ∧
    callback "S" none 0 ⟨200, "", none⟩ ⟨some "abc", some "WRONG"⟩ =
      ⟨"State mismatch", 400, none, 0⟩ :=
  ⟨(C5_callback_guards "S" none 0 ⟨200, "", none⟩ ⟨none, some "S"⟩).1
      (by decide),
   (C5_callback_guards "S" none 0 ⟨200, "", none⟩
      ⟨some "abc", some "WRONG"⟩).2 "abc" rfl (by decide) (by decide)⟩

/-- C6 counterexample: when the exchange response is successful at the HTTP
level but its body is unparsable as JSON, the handler catches the parse
failure, persists nothing, and still answers 200 — not the 400 the claim
states. -/
theorem C6_counterexample :
    (callback "S" none 5 ⟨200, "garbage", none⟩
        ⟨some "abc", some "S"⟩).status = 200 ∧
    (callback "S" none 5 ⟨200, "garbage", none⟩
        ⟨some "abc", some "S"⟩).store = none := by
  constructor <;> decide

/-- C6 amended: during the exchange step, if the token endpoint answers
with status ≥ 400 (`not resp.ok`) the handler responds 400 and persists no
record; if it answers with a passing status but a body unparsable as JSON,
the handler persists no record but responds 200 (the failure is only
logged to the console). -/
theorem C6_exchange_failure (st : String) (store : Option Record) (now : Int)
    (net : HttpResponse) (req : CallbackRequest) (c : String)
    (hc : req.code = some c) (hcne : c ≠ "") (hst : req.state = some st) :
    (400 ≤ net.status →
      callback st store now net req =
        ⟨"Token exchange failed (" ++ toString net.status ++ "). See console.",
          400, store, 1⟩) ∧
    (net.status < 400 → net.jsonBody = none →
      callback st store now net req = ⟨successBody, 200, store, 1⟩) := by
  have ht : truthyStr req.code = true := by simp [truthyStr, hc, hcne]
  have hsteq : ¬(req.state ≠ some st) := by simp [hst]
  constructor
  · intro hbad
    have hok : respOk net.status = false := by
      simp only [respOk, decide_eq_false_iff_not, not_lt]
      omega
    simp [callback, ht, hsteq, hok]
  · intro hlt hb
    have hok : respOk net.status = true := by
      simp only [respOk, decide_eq_true_eq]
      omega
    simp [callback, ht, hsteq, hok, hb]

/-- Witness for the amended C6: a mocked 500 rejection and a mocked 250
response with an unparsable body. -/
theorem C6_exchange_failure_witness :
    callback "S" none 7 ⟨500, "err", none⟩ ⟨some "abc", some "S"⟩ =
      ⟨"Token exchange failed (" ++ toString (500 : Nat) ++ "). See console.",
        400, none, 1⟩ ∧
    callback "S" none 7 ⟨250, "weird", none⟩ ⟨some "abc", some "S"⟩ =
      ⟨successBody, 200, none, 1⟩ :=
  ⟨(C6_exchange_failure "S" none 7 ⟨500, "err", none⟩ ⟨some "abc", some "S"⟩
      "abc" rfl (by decide) rfl).1 (by decide),
   (C6_exchange_failure "S" none 7 ⟨250, "weird", none⟩ ⟨some "abc", some "S"⟩
      "abc" rfl (by decide) rfl).2 (by decide) rfl⟩

theorem quoteSafe_b64Char_bounded : ∀ j < 64, quoteSafe (b64Char j) = true := by
  decide

theorem quoteSafe_b64Char (i : Nat) : quoteSafe (b64Char i) = true := by
  have h2 : i % 64 % 64 = i % 64 := by omega
  have h1 : b64Char i = b64Char (i % 64) := by
    simp only [b64Char, h2]
  rw [h1]
  exact quoteSafe_b64Char_bounded (i % 64) (Nat.mod_lt i (by omega))

theorem mem_b64urlCore :
    ∀ (bs : List Nat) (c : Char), c ∈ b64urlCore bs → ∃ i, c = b64Char i
  | [], c, h => by simp [b64urlCore] at h
  | [a], c, h => by
    simp only [b64urlCore, List.mem_cons, List.not_mem_nil, or_false] at h
    rcases h with h | h <;> exact ⟨_, h⟩
  | [a, b], c, h => by
    simp only [b64urlCore, List.mem_cons, List.not_mem_nil, or_false] at h
    rcases h with h | h | h <;> exact ⟨_, h⟩
  | a :: b :: d :: rest, c, h => by
    simp only [b64urlCore, List.mem_cons] at h
    rcases h with h | h | h | h | h
    · exact ⟨_, h⟩
    · exact ⟨_, h⟩
    · exact ⟨_, h⟩
    · exact ⟨_, h⟩
    · exact mem_b64urlCore rest c h

theorem quoteChar_of_safe {c : Char} (h : quoteSafe c = true) :
    quoteChar c = [c] := by
  simp [quoteChar, h]

theorem flatten_map_quoteChar (cs : List Char)
    (h : ∀ c ∈ cs, quoteSafe c = true) :
    (cs.map quoteChar).flatten = cs := by
  induction cs with
  | nil => simp
  | cons c rest ih =>
    simp only [List.map_cons, List.flatten_cons]
    rw [quoteChar_of_safe (h c (by simp))]
    simp [ih (fun x hx => h x (by simp [hx]))]

theorem quote_b64url (bs : List Nat) : quote (b64url bs) = b64url bs := by
  unfold quote b64url
  have htl : (String.mk (b64urlCore bs)).toList = b64urlCore bs := rfl
  rw [htl, flatten_map_quoteChar _ (fun c hc => by
    obtain ⟨i, hi⟩ := mem_b64urlCore bs c hc
    rw [hi]
    exact quoteSafe_b64Char i)]

/-- C7: for every Authorization Session, the `code_challenge` placed in the
authorize URL equals the unpadded base64url encoding of the SHA-256 digest
of the session's `code_verifier` (recomputing it from the verifier
reproduces the URL's value — percent-encoding leaves it untouched since
every base64url character is URL-safe), and the URL carries
`code_challenge_method=S256`. -/
theorem C7_pkce_round_trip (sha256 : String → List Nat)
    (verifier st appKey : String) :
    (mkSession sha256 verifier st).code_challenge =
      b64url (sha256 ((mkSession sha256 verifier st).code_verifier)) ∧
    ("code_challenge", (mkSession sha256 verifier st).code_challenge) ∈
      authorizeParams appKey (mkSession sha256 verifier st) ∧
    ("code_challenge_method", "S256") ∈
      authorizeParams appKey (mkSession sha256 verifier st) ∧
    quote ((mkSession sha256 verifier st).code_challenge) =
      (mkSession sha256 verifier st).code_challenge := by
  refine ⟨rfl, ?_, ?_, quote_b64url (sha256 verifier)⟩
  · simp [authorizeParams]
  · simp [authorizeParams]

theorem serializeRecord_ne_empty (r : Record) : serializeRecord r ≠ "" := by
  cases r with
  | nil => decide
  | cons p rest =>
    intro h
    have hl := congrArg String.length h
    simp only [serializeRecord, String.length_append] at hl
    have h1 : ("\x7b\n" : String).length = 2 := rfl
    have h2 : ("\n\x7d" : String).length = 2 := rfl
    have h0 : ("" : String).length = 0 := rfl
    rw [h1, h2, h0] at hl
    omega

/-- C4 counterexample: the save path truncates the target file in place
(`open(..., "w")`) before writing, so the observer state after the
truncating open is the empty file — neither the previously committed
record nor the new one, and not parseable JSON — refuting atomicity. -/
theorem C4_counterexample :
    ¬ crashSafe
        (saveOps "tokens_default.json" [("access_token", JVal.s "A")])
        "tokens_default.json"
        (fun p => if p = "tokens_default.json"
          then some "\x7b\"old\": 1\x7d" else none)
        (serializeRecord [("access_token", JVal.s "A")]) := by
  intro hcs
  rcases hcs 1 with h | h
  · exact absurd h (by decide)
  · exact absurd h (by decide)

/-- C4 amended: the Token Store's save operation is not atomic with respect
to partial writes: it opens the target file with truncation and writes the
serialized record directly into it (no temporary location, no rename), so
an observer between the truncating open and the completed write sees an
empty — hence unparseable — file in place of the previously committed
record. -/
theorem C4_save_not_atomic (path : String) (r : Record) (fs : Fs)
    (old : String) (hold : fs path = some old) (hne : old ≠ "") :
    (∀ src dst, FsOp.rename src dst ∉ saveOps path r) ∧
    statesAfter fs (saveOps path r) 1 path = some "" ∧
    ¬ crashSafe (saveOps path r) path fs (serializeRecord r) := by
  have hstate : statesAfter fs (saveOps path r) 1 path = some "" := by
    simp [statesAfter, saveOps, runOps, applyOp]
  refine ⟨?_, hstate, ?_⟩
  · intro src dst hmem
    simp [saveOps] at hmem
  · intro hcs
    rcases hcs 1 with h | h
    · rw [hstate, hold] at h
      injection h with h'
      exact hne h'.symm
    · rw [hstate] at h
      injection h with h'
      exact serializeRecord_ne_empty r h'.symm

/-- Witness for the amended C4: a concrete record saved over a concrete
previously committed file. -/
theorem C4_save_not_atomic_witness :
    statesAfter
        (fun p => if p = "tokens_default.json" then some "\x7bprev\x7d" else none)
        (saveOps "tokens_default.json" [("refresh_token", JVal.s "B")]) 1
        "tokens_default.json" = some "" ∧
    ¬ crashSafe (saveOps "tokens_default.json" [("refresh_token", JVal.s "B")])
        "tokens_default.json"
        (fun p => if p = "tokens_default.json" then some "\x7bprev\x7d" else none)
        (serializeRecord [("refresh_token", JVal.s "B")]) :=
  (C4_save_not_atomic "tokens_default.json" [("refresh_token", JVal.s "B")]
    (fun p => if p = "tokens_default.json" then some "\x7bprev\x7d" else none)
    "\x7bprev\x7d" rfl (by decide)).2

end SchwabTokens
